import Mathlib

/-!
Shallow embedding of `src/crypto_calculator.py` (the crypto converter
notebook).  The two functions the specification is about are
`get_current_rate` and the Dash callback `update_conversion`.

Modelling conventions:

- Python floats are idealised as `ℚ`.
- The network is an oracle `fetch : String → ApiResponse` mapping the
  requested URL to the outcome of `requests.get(url).json()`:
  `netError` models `requests.get` raising, `invalidJson` models
  `.json()` raising on a non-JSON body, and `body j` models a
  successfully decoded JSON document `j`.
- A Python function that may let an exception escape is embedded as
  `Except Unit _`; `Except.error ()` is an uncaught exception reaching
  the caller, `Except.ok` a normal return.
- Each embedded function also returns the list of URLs it requested
  (its outbound-call trace), so frame/effect claims are statable.
-/

/-- A decoded JSON document, as produced by `requests.Response.json()`. -/
inductive Json where
  | null : Json
  | bool (b : Bool) : Json
  | num (q : ℚ) : Json
  | str (s : String) : Json
  | arr (elems : List Json) : Json
  | obj (fields : List (String × Json)) : Json

/-- Outcome of `requests.get(url).json()` for one URL. -/
inductive ApiResponse where
  | netError : ApiResponse
  | invalidJson : ApiResponse
  | body (j : Json) : ApiResponse

/-- Python `data[key]` on a decoded JSON value, inside a `try` block:
`none` models the `KeyError` (key absent) or `TypeError` (not a dict)
that the bare `except` catches. -/
def Json.get? : Json → String → Option Json
  | .obj fields, key => fields.lookup key
  | _, _ => none

/-- Characters Python `float` strips from both ends of its argument. -/
def trimSpaces (cs : List Char) : List Char :=
  ((cs.dropWhile Char.isWhitespace).reverse.dropWhile Char.isWhitespace).reverse

/-- Numeric value of a list of decimal digit characters. -/
def digitsToNat (cs : List Char) : ℕ :=
  cs.foldl (fun a c => a * 10 + (c.toNat - 48)) 0

/-- Consume an optional leading sign; returns (isNegative, rest). -/
def parseSign : List Char → Bool × List Char
  | '+' :: rest => (false, rest)
  | '-' :: rest => (true, rest)
  | cs => (false, cs)

/-- Split at the first exponent marker `e`/`E`, if any. -/
def splitExp : List Char → List Char × Option (List Char)
  | [] => ([], none)
  | c :: rest =>
    if c = 'e' ∨ c = 'E' then ([], some rest)
    else
      let (m, e) := splitExp rest
      (c :: m, e)

/-- Unsigned decimal mantissa: `digits`, `digits.digits`, `digits.` or
`.digits` (at least one digit overall). -/
def parseMantissa (cs : List Char) : Option ℚ :=
  let ipart := cs.takeWhile Char.isDigit
  let rest := cs.dropWhile Char.isDigit
  match rest with
  | [] => if ipart.isEmpty then none else some ((digitsToNat ipart : ℕ) : ℚ)
  | '.' :: fpart =>
    if fpart.all Char.isDigit && (!ipart.isEmpty || !fpart.isEmpty) then
      some (((digitsToNat ipart : ℕ) : ℚ) +
        ((digitsToNat fpart : ℕ) : ℚ) / ((10 : ℚ) ^ fpart.length))
    else none
  | _ => none

/-- Python `float(s)` on a string, idealised over `ℚ`: optional sign,
decimal mantissa, optional signed exponent.  (`inf`/`nan` and digit
underscores have no `ℚ` counterpart and are treated as parse failures;
no claim depends on them.) -/
def parsePyFloat (s : String) : Option ℚ :=
  let cs := trimSpaces s.data
  let (neg, cs) := parseSign cs
  let (mcs, ecs) := splitExp cs
  match parseMantissa mcs with
  | none => none
  | some m =>
    let signed := if neg then -m else m
    match ecs with
    | none => some signed
    | some ecs =>
      let (eneg, eds) := parseSign ecs
      if eds.isEmpty || !eds.all Char.isDigit then none
      else
        let e := digitsToNat eds
        some (if eneg then signed / ((10 : ℚ) ^ e) else signed * ((10 : ℚ) ^ e))

/-- Python `float(v)` applied to a JSON-decoded value (`none` = the
`TypeError`/`ValueError` the bare `except` catches). -/
def pyFloat : Json → Option ℚ
  | .str s => parsePyFloat s
  | .num q => some q
  | .bool b => some (if b then 1 else 0)
  | _ => none

/-- The module-level API credential (`my_key` in the notebook). -/
def my_key : String := "GQYCH20FNCG9NCR1"

/-- The URL built by string concatenation in `get_current_rate`. -/
def buildUrl (coin currency apikey : String) : String :=
  "https://www.alphavantage.co/query?function=CURRENCY_EXCHANGE_RATE&from_currency="
    ++ coin ++ "&to_currency=" ++ currency ++ "&apikey=" ++ apikey

/-- The `try` block of `get_current_rate`:
`rate = float(data['Realtime Currency Exchange Rate']['5. Exchange Rate'])`,
with the bare `except` collapsing every failure inside it to `None`. -/
def extractRate (j : Json) : Option ℚ :=
  match j.get? "Realtime Currency Exchange Rate" with
  | none => none
  | some d =>
    match d.get? "5. Exchange Rate" with
    | none => none
    | some v => pyFloat v

/-- `get_current_rate(coin, currency, apikey)`.  First component: the
returned rate (`Except.error ()` when `requests.get(url).json()` itself
raises, which happens OUTSIDE the `try` block); second component: the
URLs requested during the call. -/
def get_current_rate (fetch : String → ApiResponse) (coin currency apikey : String) :
    Except Unit (Option ℚ) × List String :=
  let url := buildUrl coin currency apikey
  match fetch url with
  | .netError => (.error (), [url])
  | .invalidJson => (.error (), [url])
  | .body j => (.ok (extractRate j), [url])

/-- Floor of a rational (denominators are positive, so `Int.fdiv` of
numerator by denominator is the floor). -/
def ratFloor (q : ℚ) : ℤ :=
  Int.fdiv q.num (q.den : ℤ)

/-- Round to the nearest integer, ties to even — the rounding Python
`format` applies to the (idealised) decimal value. -/
def roundHalfEven (q : ℚ) : ℤ :=
  let f := ratFloor q
  let r := q - (f : ℚ)
  if r < 1 / 2 then f
  else if 1 / 2 < r then f + 1
  else if f % 2 = 0 then f else f + 1

/-- Group a reversed digit list into blocks of three (for the `,`
format option). -/
def chunk3 : List Char → List Char
  | a :: b :: c :: d :: rest => a :: b :: c :: ',' :: chunk3 (d :: rest)
  | ds => ds

/-- A natural number in decimal with thousands separators. -/
def groupThousands (n : ℕ) : String :=
  String.mk (chunk3 (toString n).data.reverse).reverse

/-- Two-digit zero-padded decimal (the cents part of `.2f`). -/
def pad2 (n : ℕ) : String :=
  if n < 10 then "0" ++ toString n else toString n

/-- Python `f'{q:,.2f}'` on a nonnegative value. -/
def commaFixed2Aux (q : ℚ) : String :=
  let c := (roundHalfEven (q * 100)).toNat
  groupThousands (c / 100) ++ "." ++ pad2 (c % 100)

/-- Python `f'{q:,.2f}'` over the idealised floats. -/
def commaFixed2 (q : ℚ) : String :=
  if q < 0 then "-" ++ commaFixed2Aux (-q) else commaFixed2Aux q

/-- Decimal expansion of a fractional part `0 ≤ q < 1`, fuelled (every
value arising from a finite decimal terminates well within the fuel). -/
def fracDigits : ℕ → ℚ → String
  | 0, _ => ""
  | n + 1, q =>
    if q = 0 then ""
    else
      let d := (ratFloor (q * 10)).toNat
      toString d ++ fracDigits n (q * 10 - ((ratFloor (q * 10) : ℤ) : ℚ))

/-- Python `f'{q:,}'` on a nonnegative value: Dash delivers an integral
amount as a Python `int` (plain grouped digits) and a fractional one as
a `float` (grouped integer part, dot, fraction digits). -/
def pyCommaReprAux (q : ℚ) : String :=
  if q.den = 1 then groupThousands q.num.toNat
  else
    groupThousands (ratFloor q).toNat ++ "." ++
      fracDigits 1200 (q - ((ratFloor q : ℤ) : ℚ))

/-- Python `f'{q:,}'` over the idealised floats. -/
def pyCommaRepr (q : ℚ) : String :=
  if q < 0 then "-" ++ pyCommaReprAux (-q) else pyCommaReprAux q

/-- The `symbol` dict of `update_conversion`
(`{'USD' : '$', 'EUR' : '€', 'GBP' : '£'}`). -/
def symbol : List (String × String) :=
  [("USD", "$"), ("EUR", "€"), ("GBP", "£")]

/-- What the callback hands back to Dash: a plain string child or an
`html.H4` element. -/
inductive DashChildren where
  | text (s : String) : DashChildren
  | h4 (s : String) : DashChildren
deriving DecidableEq

/-- The Dash callback `update_conversion(coin, currency, amount)`.
First component: the children returned to Dash (`Except.error ()` when
an exception escapes the callback — a failure raised out of
`get_current_rate`, or the `KeyError` from `symbol[currency]`);
second component: the URLs requested during the call. -/
def update_conversion (fetch : String → ApiResponse) (coin currency : String)
    (amount : Option ℚ) : Except Unit DashChildren × List String :=
  match amount with
  | none => (.ok (.text ""), [])
  | some amt =>
    let r := get_current_rate fetch coin currency my_key
    match r.1 with
    | .error e => (.error e, r.2)
    | .ok none => (.ok (.text "Data not available"), r.2)
    | .ok (some rate) =>
      let conversion := rate * amt
      match symbol.lookup currency with
      | none => (.error (), r.2)
      | some sym =>
        (.ok (.h4 (pyCommaRepr amt ++ " " ++ coin ++ " = " ++ sym
          ++ commaFixed2 conversion)), r.2)

/-- A JSON body of the shape the Alpha Vantage endpoint returns on
success, with the rate field set to `s`. -/
def jsonRate (s : String) : Json :=
  .obj [("Realtime Currency Exchange Rate",
    .obj [("5. Exchange Rate", .str s)])]

deriving instance DecidableEq for Except

/-- Claim C4, confirmed: for every rate behaviour of the network, an
absent amount makes `update_conversion` return the empty result, and
that empty result is distinct from the Unavailable message. -/
theorem update_conversion_absent_amount (fetch : String → ApiResponse)
    (coin currency : String) :
    (update_conversion fetch coin currency none).1 = .ok (.text "") ∧
    DashChildren.text "" ≠ DashChildren.text "Data not available" :=
  ⟨rfl, by decide⟩

/-- Claim C9, confirmed: with an absent amount the callback returns
before calling `get_current_rate`, so its outbound-call trace is empty. -/
theorem update_conversion_absent_amount_no_call (fetch : String → ApiResponse)
    (coin currency : String) :
    (update_conversion fetch coin currency none).2 = [] :=
  rfl

/-- Claim C7, confirmed: every invocation of `get_current_rate` issues
exactly one outbound GET, whatever the network does. -/
theorem get_current_rate_one_call (fetch : String → ApiResponse)
    (coin currency apikey : String) :
    (get_current_rate fetch coin currency apikey).2 = [buildUrl coin currency apikey] ∧
    ((get_current_rate fetch coin currency apikey).2).length = 1 := by
  unfold get_current_rate
  cases h : fetch (buildUrl coin currency apikey) <;> simp [h]

/-- Claim C8, confirmed: the single GET goes to the fixed endpoint
template with the asset, currency and credential interpolated as the
`from_currency`, `to_currency` and `apikey` query parameters. -/
theorem get_current_rate_queries_endpoint (fetch : String → ApiResponse)
    (coin currency apikey : String) :
    (get_current_rate fetch coin currency apikey).2 =
      ["https://www.alphavantage.co/query?function=CURRENCY_EXCHANGE_RATE&from_currency="
        ++ coin ++ "&to_currency=" ++ currency ++ "&apikey=" ++ apikey] := by
  unfold get_current_rate buildUrl
  cases h : fetch ("https://www.alphavantage.co/query?function=CURRENCY_EXCHANGE_RATE&from_currency="
    ++ coin ++ "&to_currency=" ++ currency ++ "&apikey=" ++ apikey) <;> simp [h]

/-- Claim C5, confirmed: when `get_current_rate` comes back with `None`
(the Unavailable sentinel), the callback shows the fixed message,
independent of amount, coin and currency. -/
theorem update_conversion_unavailable (fetch : String → ApiResponse)
    (coin currency : String) (amt : ℚ)
    (h : (get_current_rate fetch coin currency my_key).1 = .ok none) :
    (update_conversion fetch coin currency (some amt)).1 = .ok (.text "Data not available") := by
  simp only [update_conversion]
  rw [h]

/-- Witness for `update_conversion_unavailable`: a response whose JSON
body is an empty object yields the Unavailable sentinel and the fixed
message. -/
theorem update_conversion_unavailable_witness :
    (update_conversion (fun _ => .body (Json.obj [])) "BTC" "USD" (some 1)).1
      = .ok (.text "Data not available") :=
  update_conversion_unavailable (fun _ => .body (Json.obj [])) "BTC" "USD" 1 rfl

/-- Claim C2, confirmed: with a positive rate, a nonnegative amount and
a supported currency, the callback computes `amount * rate` and renders
it after the currency symbol, following the amount and coin code, with
thousands separators and exactly two decimals on the converted value. -/
theorem update_conversion_success (fetch : String → ApiResponse)
    (coin currency sym : String) (rate amt : ℚ)
    (hpos : 0 < rate) (hamt : 0 ≤ amt)
    (hrate : (get_current_rate fetch coin currency my_key).1 = .ok (some rate))
    (hsym : symbol.lookup currency = some sym) :
    (update_conversion fetch coin currency (some amt)).1 =
      .ok (.h4 (pyCommaRepr amt ++ " " ++ coin ++ " = " ++ sym
        ++ commaFixed2 (amt * rate))) := by
  simp only [update_conversion]
  rw [hrate]
  simp only [hsym, mul_comm rate amt]

/-- Witness for `update_conversion_success`: the two display examples,
`1` BTC at rate `65000.12` in USD and `2.5` ETH at rate `3000.00` in
EUR. -/
theorem update_conversion_success_witness :
    (update_conversion (fun _ => .body (jsonRate "65000.12")) "BTC" "USD" (some 1)).1
      = .ok (.h4 "1 BTC = $65,000.12") ∧
    (update_conversion (fun _ => .body (jsonRate "3000.00")) "ETH" "EUR" (some (5 / 2))).1
      = .ok (.h4 "2.5 ETH = €7,500.00") := by
  constructor
  · rw [update_conversion_success (fun _ => .body (jsonRate "65000.12")) "BTC" "USD" "$"
      (1625003 / 25) 1 (by norm_num) (by norm_num) (by with_unfolding_all rfl) (by rfl)]
    with_unfolding_all rfl
  · rw [update_conversion_success (fun _ => .body (jsonRate "3000.00")) "ETH" "EUR" "€"
      3000 (5 / 2) (by norm_num) (by norm_num) (by with_unfolding_all rfl) (by rfl)]
    with_unfolding_all rfl

/-- Claim C6, corrected (counterexample): equal rates and equal amounts
do not force equal display results — the rendered string also depends
on the coin (and currency); two calls that both see rate `1` and amount
`1` but different coins disagree. -/
theorem update_conversion_not_rate_amount_determined :
    (get_current_rate (fun _ => .body (jsonRate "1")) "BTC" "USD" my_key).1
      = (get_current_rate (fun _ => .body (jsonRate "1")) "ETH" "USD" my_key).1 ∧
    (update_conversion (fun _ => .body (jsonRate "1")) "BTC" "USD" (some 1)).1
      ≠ (update_conversion (fun _ => .body (jsonRate "1")) "ETH" "USD" (some 1)).1 := by
  constructor
  · with_unfolding_all rfl
  · with_unfolding_all decide

/-- Claim C6, amended: the callback's output is a deterministic pure
function of the fetched rate outcome together with coin, currency and
amount — two invocations agreeing on all of these produce equal
results. -/
theorem update_conversion_deterministic (fetch fetch' : String → ApiResponse)
    (coin currency : String) (amount : Option ℚ)
    (h : (get_current_rate fetch coin currency my_key).1
      = (get_current_rate fetch' coin currency my_key).1) :
    (update_conversion fetch coin currency amount).1
      = (update_conversion fetch' coin currency amount).1 := by
  cases amount with
  | none => rfl
  | some amt =>
    simp only [update_conversion]
    rw [h]
    cases hr : (get_current_rate fetch' coin currency my_key).1 with
    | error e => simp
    | ok o =>
      cases o with
      | none => simp
      | some rate =>
        cases symbol.lookup currency <;> simp

/-- Witness for `update_conversion_deterministic`: two different
network behaviours (`"2"` and `"2.0"` as the rate field) that parse to
the same rate give identical display results. -/
theorem update_conversion_deterministic_witness :
    (update_conversion (fun _ => .body (jsonRate "2")) "BTC" "USD" (some 1)).1
      = (update_conversion (fun _ => .body (jsonRate "2.0")) "BTC" "USD" (some 1)).1 :=
  update_conversion_deterministic (fun _ => .body (jsonRate "2"))
    (fun _ => .body (jsonRate "2.0")) "BTC" "USD" (some 1) (by with_unfolding_all rfl)

/-- Claim C1, corrected (counterexample): `requests.get(url).json()`
sits OUTSIDE the `try` block, so a failed network call or a non-JSON
body raises out of `get_current_rate` instead of yielding the `None`
sentinel. -/
theorem get_current_rate_raises_outside_try :
    (get_current_rate (fun _ => ApiResponse.netError) "BTC" "USD" my_key).1
      = .error () ∧
    (get_current_rate (fun _ => ApiResponse.netError) "BTC" "USD" my_key).1
      ≠ .ok none ∧
    (get_current_rate (fun _ => ApiResponse.invalidJson) "BTC" "USD" my_key).1
      = .error () ∧
    (get_current_rate (fun _ => ApiResponse.invalidJson) "BTC" "USD" my_key).1
      ≠ .ok none :=
  ⟨rfl, by decide, rfl, by decide⟩

/-- Claim C1, amended: once a JSON body is decoded, `get_current_rate`
never raises; it returns the `None` sentinel whenever the outer field
is absent, the nested field is absent, or the field value cannot be
parsed as a number.  (Network failures and non-JSON bodies, by
contrast, propagate as exceptions.) -/
theorem get_current_rate_json_body_unavailable (fetch : String → ApiResponse)
    (coin currency apikey : String) (j : Json)
    (h : fetch (buildUrl coin currency apikey) = ApiResponse.body j) :
    (get_current_rate fetch coin currency apikey).1 = .ok (extractRate j) ∧
    (j.get? "Realtime Currency Exchange Rate" = none →
      (get_current_rate fetch coin currency apikey).1 = .ok none) ∧
    (∀ d, j.get? "Realtime Currency Exchange Rate" = some d →
      d.get? "5. Exchange Rate" = none →
      (get_current_rate fetch coin currency apikey).1 = .ok none) ∧
    (∀ d v, j.get? "Realtime Currency Exchange Rate" = some d →
      d.get? "5. Exchange Rate" = some v → pyFloat v = none →
      (get_current_rate fetch coin currency apikey).1 = .ok none) := by
  have hbase : (get_current_rate fetch coin currency apikey).1 = .ok (extractRate j) := by
    simp only [get_current_rate]
    rw [h]
  refine ⟨hbase, ?_, ?_, ?_⟩
  · intro h1
    rw [hbase]
    simp [extractRate, h1]
  · intro d h1 h2
    rw [hbase]
    simp [extractRate, h1, h2]
  · intro d v h1 h2 h3
    rw [hbase]
    simp [extractRate, h1, h2, h3]

/-- Witness for `get_current_rate_json_body_unavailable`: an empty JSON
object (the shape Alpha Vantage answers with on bad pairs or exhausted
quota, field absent) makes the function return the sentinel, and a
non-numeric field value does too. -/
theorem get_current_rate_json_body_unavailable_witness :
    (get_current_rate (fun _ => .body (Json.obj [])) "BTC" "USD" my_key).1 = .ok none ∧
    (get_current_rate (fun _ => .body (jsonRate "not a number")) "BTC" "USD" my_key).1
      = .ok none := by
  constructor
  · exact (get_current_rate_json_body_unavailable (fun _ => .body (Json.obj []))
      "BTC" "USD" my_key (Json.obj []) rfl).2.1 rfl
  · exact (get_current_rate_json_body_unavailable (fun _ => .body (jsonRate "not a number"))
      "BTC" "USD" my_key (jsonRate "not a number") rfl).2.2.2
      (.obj [("5. Exchange Rate", .str "not a number")]) (.str "not a number")
      rfl rfl (by with_unfolding_all rfl)

/-- Claim C3, corrected (counterexample): the code has no positivity
guard — a response whose rate field parses to `0` is returned as a
present rate `0`, which is not strictly positive. -/
theorem get_current_rate_returns_nonpositive :
    (get_current_rate (fun _ => .body (jsonRate "0")) "BTC" "USD" my_key).1
      = .ok (some 0) ∧ ¬ ((0 : ℚ) > 0) :=
  ⟨rfl, by norm_num⟩

/-- Claim C3, amended: a present rate is exactly the float-parse of the
nested field value (so a non-numeric value is never returned as a
rate), but no positivity check is applied: zero or negative parsed
values come back as present rates. -/
theorem get_current_rate_present_is_parsed (fetch : String → ApiResponse)
    (coin currency apikey : String) (j : Json) (r : ℚ)
    (hb : fetch (buildUrl coin currency apikey) = ApiResponse.body j)
    (hr : (get_current_rate fetch coin currency apikey).1 = .ok (some r)) :
    ∃ d v, j.get? "Realtime Currency Exchange Rate" = some d ∧
      d.get? "5. Exchange Rate" = some v ∧ pyFloat v = some r := by
  have hbase : (get_current_rate fetch coin currency apikey).1 = .ok (extractRate j) := by
    simp only [get_current_rate]
    rw [hb]
  rw [hbase] at hr
  have hex : extractRate j = some r := by
    injection hr
  unfold extractRate at hex
  cases h1 : j.get? "Realtime Currency Exchange Rate" with
  | none => simp [h1] at hex
  | some d =>
    simp only [h1] at hex
    cases h2 : d.get? "5. Exchange Rate" with
    | none => simp [h2] at hex
    | some v =>
      simp only [h2] at hex
      exact ⟨d, v, rfl, h2, hex⟩

/-- Witness for `get_current_rate_present_is_parsed`: instantiated at
the zero-rate response, the present rate `0` is the parse of the field
value `"0"`. -/
theorem get_current_rate_present_is_parsed_witness :
    ∃ d v, (jsonRate "0").get? "Realtime Currency Exchange Rate" = some d ∧
      d.get? "5. Exchange Rate" = some v ∧ pyFloat v = some 0 :=
  get_current_rate_present_is_parsed (fun _ => .body (jsonRate "0")) "BTC" "USD" my_key
    (jsonRate "0") 0 rfl rfl

/-- Helper: a currency outside the three supported codes has no entry
in the symbol dict. -/
theorem symbol_lookup_none (c : String)
    (h : c ∉ (["USD", "EUR", "GBP"] : List String)) :
    symbol.lookup c = none := by
  simp only [List.mem_cons, List.not_mem_nil, or_false, not_or] at h
  obtain ⟨h1, h2, h3⟩ := h
  have e1 : (c == "USD") = false := beq_eq_false_iff_ne.mpr h1
  have e2 : (c == "EUR") = false := beq_eq_false_iff_ne.mpr h2
  have e3 : (c == "GBP") = false := beq_eq_false_iff_ne.mpr h3
  simp [symbol, List.lookup, e1, e2, e3]

/-- Claim C10, confirmed: the symbol dict passes lookup for exactly the
currencies USD, EUR and GBP (yielding $, € and £); for any other
currency that reaches the success branch with a present rate, the
lookup has no entry and the `KeyError` escapes the callback. -/
theorem symbol_exact_domain :
    (∀ c : String, (symbol.lookup c).isSome = true ↔ c ∈ ["USD", "EUR", "GBP"]) ∧
    symbol.lookup "USD" = some "$" ∧
    symbol.lookup "EUR" = some "€" ∧
    symbol.lookup "GBP" = some "£" ∧
    (∀ (fetch : String → ApiResponse) (coin currency : String) (amt rate : ℚ),
      currency ∉ ["USD", "EUR", "GBP"] →
      (get_current_rate fetch coin currency my_key).1 = .ok (some rate) →
      (update_conversion fetch coin currency (some amt)).1 = .error ()) := by
  refine ⟨?_, rfl, rfl, rfl, ?_⟩
  · intro c
    constructor
    · intro hs
      by_contra hmem
      rw [symbol_lookup_none c hmem] at hs
      simp at hs
    · intro hmem
      rcases List.mem_cons.mp hmem with h | hmem
      · subst h; decide
      rcases List.mem_cons.mp hmem with h | hmem
      · subst h; decide
      rcases List.mem_cons.mp hmem with h | hmem
      · subst h; decide
      simp at hmem
  · intro fetch coin currency amt rate hmem hrate
    have hnone := symbol_lookup_none currency hmem
    simp only [update_conversion]
    rw [hrate]
    simp only [hnone]

/-- Witness for `symbol_exact_domain`: USD passes the lookup, and the
(unsupported) currency NOK with a present rate makes the callback
raise. -/
theorem symbol_exact_domain_witness :
    ((symbol.lookup "USD").isSome = true) ∧
    (update_conversion (fun _ => .body (jsonRate "1")) "BTC" "NOK" (some 1)).1
      = .error () := by
  constructor
  · exact (symbol_exact_domain.1 "USD").mpr (by decide)
  · exact symbol_exact_domain.2.2.2.2 (fun _ => .body (jsonRate "1")) "BTC" "NOK" 1 1
      (by decide) (by with_unfolding_all rfl)
